import Mathlib

/-!
Shallow embedding of the policy governance controller of the CloverAI
repository: `src/governance_automation/governance_scaler.py` and
`src/governance_automation/governance_automation.py`.

Python dictionaries with a known key set are embedded as structures whose
fields are `Option`-valued when the source accesses them with `.get`
(returning `None` when absent) or with `[...]` (raising `KeyError` when
absent); a raising access is modelled as an `Except.error` carrying the
missing key's name, rendered as `"KeyError: <key>"` (Python renders
`str(KeyError(k))` as the quoted key).  Side effects — adapter state,
Prometheus metric updates, and scale calls — are threaded explicitly
through a `World` record; a Python exception appears as the
`Except String` result component while the effects performed before the
raise persist in the returned `World`, matching Python semantics.
-/

/-- The `metadata` sub-dictionary of a policy or violation document. -/
structure PolicyMeta where
  name : Option String := none
  namespace_ : Option String := none
deriving Repr, DecidableEq

/-- A policy document, as loaded from YAML: `kind`, `metadata` and an
opaque payload standing for the rest of the document (`spec`, rules, ...). -/
structure Policy where
  kind : Option String := none
  metadata : Option PolicyMeta := none
  payload : String := ""
deriving Repr, DecidableEq

/-- Identity of a resource held by the target adapter: the API/plural it is
registered under, its namespace, and its name.  Network policies live under
the `NetworkingV1Api`; generic custom objects under group `policy` with
plural `f"{kind.lower()}s"`. -/
structure ResourceKey where
  api : String
  namespace_ : String
  name : String
deriving Repr, DecidableEq

/-- The target adapter's resource store: an association list from resource
keys to the stored policy bodies. -/
abbrev AdapterState := List (ResourceKey × Policy)

/-- `TargetAdapter.readResource`: first entry with the given key, if any. -/
def readResource : AdapterState → ResourceKey → Option Policy
  | [], _ => none
  | e :: rest, k => if e.1 = k then some e.2 else readResource rest k

/-- `TargetAdapter.createResource`: add a new entry for the key. -/
def createResource (s : AdapterState) (k : ResourceKey) (p : Policy) : AdapterState :=
  (k, p) :: s

/-- `TargetAdapter.replaceResource` (also used to model a full-body patch):
overwrite every entry with the given key. -/
def replaceResource : AdapterState → ResourceKey → Policy → AdapterState
  | [], _, _ => []
  | e :: rest, k, p => (if e.1 = k then (k, p) else e) :: replaceResource rest k p

/-- The read-then-replace-or-create pattern both apply functions use against
the adapter: an existing resource is replaced (patched with the full body,
for the custom-object variant), a 404 leads to a create. -/
def upsert (s : AdapterState) (k : ResourceKey) (p : Policy) : AdapterState :=
  match readResource s k with
  | some _ => replaceResource s k p
  | none => createResource s k p

/-- One Prometheus metric update performed by `GovernanceScaler`. -/
inductive MetricEvent where
  | violationInc (policy_type severity : String)
  | activePoliciesInc (policy_type : String)
  | latencyObserve (policy_type : String)
deriving Repr, DecidableEq

/-- A scale call issued to the apps API, keyed by kind, name and namespace,
carrying the blind replica-count target. -/
structure ScaleCall where
  kind : String
  name : Option String := none
  namespace_ : Option String := none
  replicas : Option Nat := none
deriving Repr, DecidableEq

/-- One entry of a `scale_resources` remediation's `resources` list; every
field is read with `.get` in the source, hence optional. -/
structure ScaleTarget where
  kind : Option String := none
  name : Option String := none
  namespace_ : Option String := none
  replicas : Option Nat := none
deriving Repr, DecidableEq

/-- A violation's `remediation` dictionary.  `type` is read with `.get`;
`policy`, `resources` and `constraints` are read with `[...]` on the branch
that needs them. -/
structure Remediation where
  type : Option String := none
  policy : Option Policy := none
  resources : Option (List ScaleTarget) := none
  constraints : Option (List Policy) := none
deriving Repr, DecidableEq

/-- A violation's `spec` dictionary: `type` and `severity` are accessed with
`[...]` (KeyError when absent), `remediation` with `.get`. -/
structure ViolationSpec where
  type : Option String := none
  severity : Option String := none
  remediation : Option Remediation := none
deriving Repr, DecidableEq

/-- A violation event object from the watch stream. -/
structure Violation where
  spec : Option ViolationSpec := none
  metadata : Option PolicyMeta := none
deriving Repr, DecidableEq

/-- The observable effect state threaded through the scaler: the adapter's
resource store, the sequence of metric updates, and the sequence of scale
calls issued. -/
structure World where
  adapter : AdapterState := []
  metrics : List MetricEvent := []
  scaleCalls : List ScaleCall := []
deriving Repr, DecidableEq

/-- The result dictionary returned by `_apply_network_policy` /
`_apply_generic_policy`: `status`, `policy` (the name), `type`, `timestamp`. -/
structure Outcome where
  status : String
  policy : String
  type : String
  timestamp : String
deriving Repr, DecidableEq

/-- One entry of the summary's `failures` list: the failed policy's name
(read with `.get`, hence optional) and the stringified exception. -/
structure FailureEntry where
  policy_name : Option String
  error : String
deriving Repr, DecidableEq

/-- The enforcement summary built by `_process_results`. -/
structure Summary where
  total_policies : Nat
  successful : Nat
  failed : Nat
  failures : List FailureEntry
  timestamp : String
deriving Repr, DecidableEq

/-- `policy.get('metadata', {}).get('name', 'unnamed-policy')`. -/
def pyGetName (p : Policy) : String :=
  match p.metadata with
  | some m => m.name.getD "unnamed-policy"
  | none => "unnamed-policy"

/-- `policy.get('metadata', {}).get('name')` (no default: `None` if absent). -/
def pyGetNameOpt (p : Policy) : Option String :=
  match p.metadata with
  | some m => m.name
  | none => none

/-- `constraint.get('metadata', {}).get('namespace', 'default')`. -/
def pyGetNamespaceD (p : Policy) : String :=
  match p.metadata with
  | some m => m.namespace_.getD "default"
  | none => "default"

/-- `GovernanceScaler._apply_network_policy` (governance_scaler.py:175-212).
Reads `policy['metadata']['name']` (KeyError on a missing key), then reads
the named network policy from the adapter; found → full replace, 404 → create.
Returns the success dictionary. -/
def apply_network_policy (p : Policy) (ns now : String) (w : World) :
    Except String Outcome × World :=
  match p.metadata with
  | none => (.error "KeyError: metadata", w)
  | some md =>
    match md.name with
    | none => (.error "KeyError: name", w)
    | some name =>
      let key : ResourceKey := ⟨"NetworkingV1/NetworkPolicy", ns, name⟩
      (.ok ⟨"success", name, "NetworkPolicy", now⟩,
        { w with adapter := upsert w.adapter key p })

/-- `GovernanceScaler._apply_generic_policy` (governance_scaler.py:214-259).
Reads `policy['metadata']['name']` then `policy['kind']` (KeyError on a
missing key), then patches the custom object under group `policy`, plural
`kind.lower() + "s"`; a 404 on the patch leads to a create.  The patch
carries the full policy as its body, so at the adapter boundary it is
modelled as a replace of the stored body. -/
def apply_generic_policy (p : Policy) (ns now : String) (w : World) :
    Except String Outcome × World :=
  match p.metadata with
  | none => (.error "KeyError: metadata", w)
  | some md =>
    match md.name with
    | none => (.error "KeyError: name", w)
    | some name =>
      match p.kind with
      | none => (.error "KeyError: kind", w)
      | some kind =>
        let key : ResourceKey := ⟨"policy/" ++ kind.toLower ++ "s", ns, name⟩
        (.ok ⟨"success", name, kind, now⟩,
          { w with adapter := upsert w.adapter key p })

/-- `GovernanceScaler._enforce_single_policy` (governance_scaler.py:98-116).
Dispatches on `policy.get('kind', 'unknown')`; the latency histogram's timer
observes on exit of the `with` block whether or not the body raised; on
success the active-policy gauge is incremented, on failure the violation
counter labelled `(policy_type, 'error')` is incremented and the exception
is re-raised. -/
def enforce_single_policy (p : Policy) (ns now : String) (w : World) :
    Except String Outcome × World :=
  let policy_type := p.kind.getD "unknown"
  let step :=
    if policy_type = "NetworkPolicy" then apply_network_policy p ns now w
    else apply_generic_policy p ns now w
  let w1 := { step.2 with metrics := step.2.metrics ++ [MetricEvent.latencyObserve policy_type] }
  match step.1 with
  | .ok r =>
    (.ok r, { w1 with metrics := w1.metrics ++ [MetricEvent.activePoliciesInc policy_type] })
  | .error e =>
    (.error e, { w1 with metrics := w1.metrics ++ [MetricEvent.violationInc policy_type "error"] })

/-- The fan-out of `enforce_policies` (governance_scaler.py:70-76):
one enforcement task per policy, gathered with `return_exceptions=True`,
so every task runs and its outcome or exception is collected in input
order.  The single-threaded cooperative scheduler is linearised as
sequential state threading. -/
def gather_results : List Policy → String → String → World →
    List (Except String Outcome) × World
  | [], _, _, w => ([], w)
  | p :: rest, ns, now, w =>
    let step := enforce_single_policy p ns now w
    let tail := gather_results rest ns now step.2
    (step.1 :: tail.1, tail.2)

/-- Whether a gathered per-policy result is a non-exception (non-failed)
outcome. -/
def isOkResult : Except String Outcome → Bool
  | .ok _ => true
  | .error _ => false

/-- The failures-list entry a zipped `(result, policy)` pair contributes:
`{'policy_name': ..., 'error': str(result)}` when the result is an
exception, nothing otherwise. -/
def failureOf : Except String Outcome × Policy → Option FailureEntry
  | (.error e, p) => some ⟨pyGetNameOpt p, e⟩
  | (.ok _, _) => none

/-- The `for result, policy in zip(results, policies)` loop of
`_process_results` (governance_scaler.py:273-281), mutating the summary
accumulator. -/
def process_loop : List (Except String Outcome × Policy) → Summary → Summary
  | [], acc => acc
  | (r, p) :: rest, acc =>
    match r with
    | .error e =>
      process_loop rest
        { acc with
          failed := acc.failed + 1
          failures := acc.failures ++ [⟨pyGetNameOpt p, e⟩] }
    | .ok _ =>
      process_loop rest { acc with successful := acc.successful + 1 }

/-- `GovernanceScaler._process_results` (governance_scaler.py:261-283). -/
def process_results (results : List (Except String Outcome)) (policies : List Policy)
    (now : String) : Summary :=
  process_loop (results.zip policies)
    { total_policies := policies.length
      successful := 0
      failed := 0
      failures := []
      timestamp := now }

/-- `GovernanceScaler.enforce_policies` (governance_scaler.py:56-81), over an
already-loaded policy list: fan out, gather, summarise. -/
def enforce_policies (policies : List Policy) (ns now : String) (w : World) :
    Summary × World :=
  let gathered := gather_results policies ns now w
  (process_results gathered.1 policies now, gathered.2)

/-- Modelled from the spec: `_scale_deployment` is called at
governance_scaler.py:296 but is defined nowhere in the repository.  Per
spec sections 4.4 and 6 it issues one blind set-replicas scale call keyed
by `(kind, name, namespace)` against the apps adapter, which may succeed or
error; the adapter's verdict is the `scaleApi` parameter. -/
def scale_deployment (scaleApi : ScaleCall → Except String Unit) (t : ScaleTarget)
    (w : World) : Except String Unit × World :=
  let c : ScaleCall := ⟨"Deployment", t.name, t.namespace_, t.replicas⟩
  (scaleApi c, { w with scaleCalls := w.scaleCalls ++ [c] })

/-- Modelled from the spec: `_scale_statefulset` is called at
governance_scaler.py:300 but is defined nowhere in the repository; as with
`scale_deployment`, one blind set-replicas scale call keyed by
`(kind, name, namespace)`. -/
def scale_statefulset (scaleApi : ScaleCall → Except String Unit) (t : ScaleTarget)
    (w : World) : Except String Unit × World :=
  let c : ScaleCall := ⟨"StatefulSet", t.name, t.namespace_, t.replicas⟩
  (scaleApi c, { w with scaleCalls := w.scaleCalls ++ [c] })

/-- `GovernanceScaler._scale_resources` (governance_scaler.py:285-305): a
single `try` wraps the whole `for resource in resources` loop, so the first
failing target raises out of the loop (after the error log) and the
remaining targets are never attempted.  Targets whose `kind` is neither
`Deployment` nor `StatefulSet` are skipped. -/
def scale_resources (scaleApi : ScaleCall → Except String Unit) :
    List ScaleTarget → World → Except String Unit × World
  | [], w => (.ok (), w)
  | t :: rest, w =>
    if t.kind = some "Deployment" then
      match scale_deployment scaleApi t w with
      | (.ok _, w1) => scale_resources scaleApi rest w1
      | (.error e, w1) => (.error e, w1)
    else if t.kind = some "StatefulSet" then
      match scale_statefulset scaleApi t w with
      | (.ok _, w1) => scale_resources scaleApi rest w1
      | (.error e, w1) => (.error e, w1)
    else scale_resources scaleApi rest w

/-- `GovernanceScaler._apply_constraints` (governance_scaler.py:307-317):
each constraint is enforced in its own namespace (default `'default'`); the
single `try` around the loop means the first failure aborts the rest. -/
def apply_constraints : List Policy → String → World → Except String Unit × World
  | [], _, w => (.ok (), w)
  | c :: rest, now, w =>
    match enforce_single_policy c (pyGetNamespaceD c) now w with
    | (.ok _, w1) => apply_constraints rest now w1
    | (.error e, w1) => (.error e, w1)

/-- The `if remediation_type == ... elif ...` chain inside
`GovernanceScaler._remediate_violation` (governance_scaler.py:159-168):
dispatches on `remediation.get('type')`; `update_policy` re-enforces the
attached policy in `violation['metadata']['namespace']`, `scale_resources`
scales `remediation['resources']`, `apply_constraints` enforces
`remediation['constraints']`; an unknown or missing type does nothing. -/
def remediation_dispatch (scaleApi : ScaleCall → Except String Unit) (v : Violation)
    (r : Remediation) (now : String) (w : World) : Except String Unit × World :=
  if r.type = some "update_policy" then
    match r.policy with
    | none => (.error "KeyError: policy", w)
    | some pol =>
      match v.metadata with
      | none => (.error "KeyError: metadata", w)
      | some md =>
        match md.namespace_ with
        | none => (.error "KeyError: namespace", w)
        | some ns =>
          match enforce_single_policy pol ns now w with
          | (.ok _, w1) => (.ok (), w1)
          | (.error e, w1) => (.error e, w1)
  else if r.type = some "scale_resources" then
    match r.resources with
    | none => (.error "KeyError: resources", w)
    | some ts => scale_resources scaleApi ts w
  else if r.type = some "apply_constraints" then
    match r.constraints with
    | none => (.error "KeyError: constraints", w)
    | some cs => apply_constraints cs now w
  else (.ok (), w)

/-- `GovernanceScaler._remediate_violation` (governance_scaler.py:154-173).
`violation['spec'].get('remediation')`: when the field is absent the `if
remediation:` guard skips the whole body — no action, no record, no log.
Otherwise the dispatch chain runs, then the completion log line indexes
`violation['metadata']['name']` (a further possible KeyError).  Any
exception is logged and re-raised. -/
def remediate_violation (scaleApi : ScaleCall → Except String Unit) (v : Violation)
    (now : String) (w : World) : Except String Unit × World :=
  match v.spec with
  | none => (.error "KeyError: spec", w)
  | some sp =>
    match sp.remediation with
    | none => (.ok (), w)
    | some r =>
      match remediation_dispatch scaleApi v r now w with
      | (.error e, w1) => (.error e, w1)
      | (.ok _, w1) =>
        match v.metadata with
        | none => (.error "KeyError: metadata", w1)
        | some md =>
          match md.name with
          | none => (.error "KeyError: name", w1)
          | some _ => (.ok (), w1)

/-- `GovernanceScaler._handle_violation` (governance_scaler.py:133-152).
Reads `violation['spec']['type']` and `violation['spec']['severity']`
(KeyError on a missing key), increments the violation counter labelled
`(type, severity)` for every violation, and invokes the remediation
dispatcher `_remediate_violation` exactly when `severity == 'critical'`;
an exception from the dispatcher is logged and re-raised.  The third
component counts the dispatcher invocations made while handling this
event (`_remediate_violation` has no other call site in the repository). -/
def handle_violation (scaleApi : ScaleCall → Except String Unit) (v : Violation)
    (now : String) (w : World) : Except String Unit × World × Nat :=
  match v.spec with
  | none => (.error "KeyError: spec", w, 0)
  | some sp =>
    match sp.type with
    | none => (.error "KeyError: type", w, 0)
    | some vtype =>
      match sp.severity with
      | none => (.error "KeyError: severity", w, 0)
      | some sev =>
        let w1 := { w with metrics := w.metrics ++ [MetricEvent.violationInc vtype sev] }
        if sev = "critical" then
          match remediate_violation scaleApi v now w1 with
          | (.ok _, w2) => (.ok (), w2, 1)
          | (.error e, w2) => (.error e, w2, 1)
        else (.ok (), w1, 0)

/-- `GovernanceScaler.__init__` / `_init_kubernetes`
(governance_scaler.py:20-24, 44-54): metrics are registered, then the
Kubernetes client is initialised; an initialisation failure is logged and
re-raised, so construction fails. -/
structure GovernanceScaler where
  config_dir : String
deriving Repr, DecidableEq

/-- Constructor of `GovernanceScaler`; `k8sOk` is whether
`config.load_kube_config()` and client construction succeed. -/
def GovernanceScaler.construct (config_dir : String) (k8sOk : Bool) :
    Except String GovernanceScaler :=
  if k8sOk then .ok ⟨config_dir⟩
  else .error "Failed to initialize Kubernetes client"

/-- An adapter call the enforcer could make; `GovernanceEnforcer.enforce_policy`
returns the list of such calls it performed so that the silent path's
zero-call guarantee is observable. -/
inductive AdapterCall where
  | create (k : ResourceKey)
  | replace (k : ResourceKey)
  | patch (k : ResourceKey)
  | read (k : ResourceKey)
deriving Repr, DecidableEq

/-- A result dictionary of `GovernanceEnforcer` (governance_automation.py).
The three dictionary shapes in the source share these keys; a key absent
from a given shape is `none` (the silent-path dict has `mode: 'silent'`
and no separate `kind`; the active-path dict has no `name`; the
`_simulate_policy_enforcement` dict has `kind`/`name` and no `mode`). -/
structure EnforcerOutcome where
  status : String
  policy_type : Option String := none
  name : Option String := none
  namespace_ : String
  timestamp : String
  mode : Option String := none
deriving Repr, DecidableEq

/-- `GovernanceEnforcer._simulate_policy_enforcement`
(governance_automation.py:121-133): builds the simulated-outcome dict from
`policy.get('metadata', {}).get('name', 'unnamed-policy')` and
`policy.get('kind', 'Unknown')`. -/
def simulate_policy_enforcement (p : Policy) (ns now : String) : EnforcerOutcome :=
  { status := "simulated"
    policy_type := some (p.kind.getD "Unknown")
    name := some (pyGetName p)
    namespace_ := ns
    timestamp := now }

/-- `GovernanceEnforcer._enforce_network_policy`
(governance_automation.py:105-111): delegates to the simulation helper in
silent mode; the non-silent body is elided in the source (the function
falls through and returns `None`). -/
def enforce_network_policy_m (silent_mode : Bool) (p : Policy) (ns now : String) :
    Option EnforcerOutcome :=
  if silent_mode then some (simulate_policy_enforcement p ns now) else none

/-- `GovernanceEnforcer._enforce_generic_policy`
(governance_automation.py:113-119): same shape as the network variant. -/
def enforce_generic_policy_m (silent_mode : Bool) (p : Policy) (ns now : String) :
    Option EnforcerOutcome :=
  if silent_mode then some (simulate_policy_enforcement p ns now) else none

/-- The body of `GovernanceEnforcer.enforce_policy`
(governance_automation.py:57-103) after the policy file has been opened and
parsed: extracts `kind` and `name` with defaulting `.get` chains; in silent
mode returns the `simulated` dict immediately with no adapter interaction;
otherwise invokes the (stubbed) enforcement helper, discards its result,
and returns the `success`/`active` dict.  The returned triple carries the
adapter state and the list of adapter calls performed. -/
def enforce_policy_doc (silent_mode : Bool) (p : Policy) (ns now : String)
    (s : AdapterState) : Except String (EnforcerOutcome × AdapterState × List AdapterCall) :=
  let policy_type := p.kind
  let name := pyGetName p
  if silent_mode then
    .ok ({ status := "simulated"
           policy_type := policy_type
           namespace_ := ns
           name := some name
           timestamp := now
           mode := some "silent" }, s, [])
  else
    let _ignored :=
      if policy_type = some "NetworkPolicy" then enforce_network_policy_m silent_mode p ns now
      else enforce_generic_policy_m silent_mode p ns now
    .ok ({ status := "success"
           policy_type := policy_type
           namespace_ := ns
           timestamp := now
           mode := some "active" }, s, [])

/-- `GovernanceEnforcer` state after `__init__`
(governance_automation.py:17-31): the configuration directory, the mode
actually selected, and the policies loaded from the directory (a map the
enforcement path never consults). -/
structure GovernanceEnforcer where
  config_dir : String
  silent_mode : Bool
  policies : List Policy
deriving Repr, DecidableEq

/-- `GovernanceEnforcer.__init__` together with `_init_kubernetes`
(governance_automation.py:17-43): when constructed with
`silent_mode=False`, Kubernetes initialisation is attempted once; on
failure it is logged as a warning and `self.silent_mode` is set back to
`True` — no exception escapes and no retry happens.  `_load_policies` then
runs and may raise (`dirPolicies = none` models an unreadable directory). -/
def GovernanceEnforcer.construct (dirPolicies : Option (List Policy))
    (config_dir : String) (k8sOk : Bool) (silent_mode : Bool := true) :
    Except String GovernanceEnforcer :=
  let sm := if silent_mode then true else if k8sOk then false else true
  match dirPolicies with
  | none => .error "Failed to load policies"
  | some ps => .ok ⟨config_dir, sm, ps⟩

/-- `GovernanceEnforcer.enforce_policy` (governance_automation.py:57-103)
including the file read: `fs` maps a path to its parsed policy document
(`none` models an unreadable or unparseable file, whose exception
propagates). -/
def GovernanceEnforcer.enforce_policy (e : GovernanceEnforcer)
    (fs : String → Option Policy) (policy_file ns now : String) (s : AdapterState) :
    Except String (EnforcerOutcome × AdapterState × List AdapterCall) :=
  match fs policy_file with
  | none => .error "failed to open or parse policy file"
  | some p => enforce_policy_doc e.silent_mode p ns now s

/-- `os.path.dirname`. -/
def dirname (path : String) : String :=
  String.intercalate "/" (path.splitOn "/").dropLast

/-- The module-level functional interface `enforce_policy`
(governance_automation.py:135-151): constructs a `GovernanceEnforcer` on
the policy file's directory, passing no `silent_mode` argument (so the
default `True` applies), and delegates to the method. -/
def module_enforce_policy (fs : String → Option Policy)
    (dirPolicies : Option (List Policy)) (k8sOk : Bool)
    (policy_file ns now : String) (s : AdapterState) :
    Except String (EnforcerOutcome × AdapterState × List AdapterCall) :=
  match GovernanceEnforcer.construct dirPolicies (dirname policy_file) k8sOk with
  | .error e => .error e
  | .ok enf => enf.enforce_policy fs policy_file ns now s

/-! Fault-aware adapter embedding.  The apply functions above model a
healthy adapter; the source additionally handles `ApiException`s raised by
the client calls (governance_scaler.py:192-201 and 236-248): a 404 from
the read/patch leads to a create, any other `ApiException` is re-raised
and ends up, stringified, in the summary's failures list.  The `_api`
variants below model those paths, with the transport's failures injected
through an `AdapterFaults` oracle; with the all-healthy oracle they agree
with the plain variants (proved below). -/

/-- An `ApiException` raised by a Kubernetes client call: HTTP status code
and reason. -/
structure ApiError where
  status : Nat
  reason : String
deriving Repr, DecidableEq

/-- How Python renders an `ApiException`: `str(e)` yields
`"(status)\nReason: reason\n"` — in particular it is never empty. -/
def ApiError.render (e : ApiError) : String :=
  "(" ++ toString e.status ++ ")\nReason: " ++ e.reason ++ "\n"

/-- Fault injection for the target adapter: per operation and resource key,
whether the underlying client call raises and with which `ApiException`.
`none` everywhere models a healthy transport. -/
structure AdapterFaults where
  readFault : ResourceKey → Option ApiError := fun _ => none
  replaceFault : ResourceKey → Option ApiError := fun _ => none
  createFault : ResourceKey → Option ApiError := fun _ => none
  patchFault : ResourceKey → Option ApiError := fun _ => none

/-- The healthy adapter: no client call raises. -/
def noFaults : AdapterFaults := {}

/-- `GovernanceScaler._apply_network_policy` (governance_scaler.py:175-212)
with the `ApiException` paths: the inner `try` covers the read and the
replace; a read of an absent resource raises `ApiException(404)`; the
`except` clause creates on a 404 and re-raises any other `ApiException`,
whose rendered text becomes the failure detail; an exception from the
create itself propagates likewise. -/
def apply_network_policy_api (f : AdapterFaults) (p : Policy) (ns now : String)
    (w : World) : Except String Outcome × World :=
  match p.metadata with
  | none => (.error "KeyError: metadata", w)
  | some md =>
    match md.name with
    | none => (.error "KeyError: name", w)
    | some name =>
      let key : ResourceKey := ⟨"NetworkingV1/NetworkPolicy", ns, name⟩
      let attempt : Except ApiError AdapterState :=
        match f.readFault key with
        | some e => .error e
        | none =>
          match readResource w.adapter key with
          | some _ =>
            match f.replaceFault key with
            | some e => .error e
            | none => .ok (replaceResource w.adapter key p)
          | none => .error ⟨404, "Not Found"⟩
      match attempt with
      | .ok s1 => (.ok ⟨"success", name, "NetworkPolicy", now⟩, { w with adapter := s1 })
      | .error e =>
        if e.status = 404 then
          match f.createFault key with
          | some e2 => (.error e2.render, w)
          | none => (.ok ⟨"success", name, "NetworkPolicy", now⟩,
              { w with adapter := createResource w.adapter key p })
        else (.error e.render, w)

/-- `GovernanceScaler._apply_generic_policy` (governance_scaler.py:214-259)
with the `ApiException` paths: the patch of an absent custom object raises
`ApiException(404)`; the `except` clause creates on a 404 and re-raises any
other `ApiException`; an exception from the create propagates likewise. -/
def apply_generic_policy_api (f : AdapterFaults) (p : Policy) (ns now : String)
    (w : World) : Except String Outcome × World :=
  match p.metadata with
  | none => (.error "KeyError: metadata", w)
  | some md =>
    match md.name with
    | none => (.error "KeyError: name", w)
    | some name =>
      match p.kind with
      | none => (.error "KeyError: kind", w)
      | some kind =>
        let key : ResourceKey := ⟨"policy/" ++ kind.toLower ++ "s", ns, name⟩
        let attempt : Except ApiError AdapterState :=
          match f.patchFault key with
          | some e => .error e
          | none =>
            match readResource w.adapter key with
            | some _ => .ok (replaceResource w.adapter key p)
            | none => .error ⟨404, "Not Found"⟩
        match attempt with
        | .ok s1 => (.ok ⟨"success", name, kind, now⟩, { w with adapter := s1 })
        | .error e =>
          if e.status = 404 then
            match f.createFault key with
            | some e2 => (.error e2.render, w)
            | none => (.ok ⟨"success", name, kind, now⟩,
                { w with adapter := createResource w.adapter key p })
          else (.error e.render, w)

/-- `GovernanceScaler._enforce_single_policy` over the fault-aware adapter
(same wrapper as `enforce_single_policy`: latency observation, then gauge
increment on success or error-labelled violation counter and re-raise on
failure). -/
def enforce_single_policy_api (f : AdapterFaults) (p : Policy) (ns now : String)
    (w : World) : Except String Outcome × World :=
  let policy_type := p.kind.getD "unknown"
  let step :=
    if policy_type = "NetworkPolicy" then apply_network_policy_api f p ns now w
    else apply_generic_policy_api f p ns now w
  let w1 := { step.2 with metrics := step.2.metrics ++ [MetricEvent.latencyObserve policy_type] }
  match step.1 with
  | .ok r =>
    (.ok r, { w1 with metrics := w1.metrics ++ [MetricEvent.activePoliciesInc policy_type] })
  | .error e =>
    (.error e, { w1 with metrics := w1.metrics ++ [MetricEvent.violationInc policy_type "error"] })

/-- The `enforce_policies` fan-out over the fault-aware adapter. -/
def gather_results_api (f : AdapterFaults) :
    List Policy → String → String → World → List (Except String Outcome) × World
  | [], _, _, w => ([], w)
  | p :: rest, ns, now, w =>
    let step := enforce_single_policy_api f p ns now w
    let tail := gather_results_api f rest ns now step.2
    (step.1 :: tail.1, tail.2)

/-- `GovernanceScaler.enforce_policies` over the fault-aware adapter. -/
def enforce_policies_api (f : AdapterFaults) (policies : List Policy) (ns now : String)
    (w : World) : Summary × World :=
  let gathered := gather_results_api f policies ns now w
  (process_results gathered.1 policies now, gathered.2)

/-- The scale call a `ScaleResources` target gives rise to: Deployment and
StatefulSet targets are scaled, any other kind is skipped by the loop. -/
def targetCall (t : ScaleTarget) : Option ScaleCall :=
  if t.kind = some "Deployment" then some ⟨"Deployment", t.name, t.namespace_, t.replicas⟩
  else if t.kind = some "StatefulSet" then
    some ⟨"StatefulSet", t.name, t.namespace_, t.replicas⟩
  else none

/-! Adapter-store lemmas. -/

theorem readResource_replace_of_some {s : AdapterState} {k : ResourceKey} {q : Policy}
    (p : Policy) (h : readResource s k = some q) :
    readResource (replaceResource s k p) k = some p := by
  induction s with
  | nil => simp [readResource] at h
  | cons e rest ih =>
    by_cases he : e.1 = k
    · simp [readResource, replaceResource, he]
    · simp only [readResource, replaceResource, he, if_false, if_neg he] at h ⊢
      exact ih h

theorem replaceResource_of_read_none {s : AdapterState} {k : ResourceKey}
    (p : Policy) (h : readResource s k = none) :
    replaceResource s k p = s := by
  induction s with
  | nil => rfl
  | cons e rest ih =>
    by_cases he : e.1 = k
    · simp [readResource, he] at h
    · simp only [readResource, he, if_neg he] at h
      simp [replaceResource, he, ih h]

theorem replaceResource_idem (s : AdapterState) (k : ResourceKey) (p : Policy) :
    replaceResource (replaceResource s k p) k p = replaceResource s k p := by
  induction s with
  | nil => rfl
  | cons e rest ih =>
    by_cases he : e.1 = k <;> simp [replaceResource, he, ih]

theorem readResource_create (s : AdapterState) (k : ResourceKey) (p : Policy) :
    readResource (createResource s k p) k = some p := by
  simp [readResource, createResource]

/-- Applying the same create-or-replace twice leaves the store where one
application put it. -/
theorem upsert_idem (s : AdapterState) (k : ResourceKey) (p : Policy) :
    upsert (upsert s k p) k p = upsert s k p := by
  unfold upsert
  cases h : readResource s k with
  | some q =>
    simp [readResource_replace_of_some p h, replaceResource_idem]
  | none =>
    simp only [readResource_create]
    show replaceResource (createResource s k p) k p = createResource s k p
    simp [replaceResource, createResource, replaceResource_of_read_none p h]

/-! Effect-frame lemmas: which components of the `World` each scaler
operation can change. -/

theorem apply_network_policy_metrics (p : Policy) (ns now : String) (w : World) :
    (apply_network_policy p ns now w).2.metrics = w.metrics := by
  unfold apply_network_policy
  split
  · rfl
  · split <;> rfl

theorem apply_network_policy_scaleCalls (p : Policy) (ns now : String) (w : World) :
    (apply_network_policy p ns now w).2.scaleCalls = w.scaleCalls := by
  unfold apply_network_policy
  split
  · rfl
  · split <;> rfl

theorem apply_generic_policy_metrics (p : Policy) (ns now : String) (w : World) :
    (apply_generic_policy p ns now w).2.metrics = w.metrics := by
  unfold apply_generic_policy
  split
  · rfl
  · split
    · rfl
    · split <;> rfl

theorem apply_generic_policy_scaleCalls (p : Policy) (ns now : String) (w : World) :
    (apply_generic_policy p ns now w).2.scaleCalls = w.scaleCalls := by
  unfold apply_generic_policy
  split
  · rfl
  · split
    · rfl
    · split <;> rfl

theorem enforce_single_policy_metrics_extend (p : Policy) (ns now : String) (w : World) :
    ∃ t, (enforce_single_policy p ns now w).2.metrics = w.metrics ++ t := by
  by_cases hk : p.kind.getD "unknown" = "NetworkPolicy"
  · have hm := apply_network_policy_metrics p ns now w
    rcases h : apply_network_policy p ns now w with ⟨r, w'⟩
    rw [h] at hm
    replace hm : w'.metrics = w.metrics := hm
    cases r with
    | ok o =>
      exact ⟨[MetricEvent.latencyObserve (p.kind.getD "unknown"),
              MetricEvent.activePoliciesInc (p.kind.getD "unknown")],
        by simp [enforce_single_policy, hk, h, hm]⟩
    | error e =>
      exact ⟨[MetricEvent.latencyObserve (p.kind.getD "unknown"),
              MetricEvent.violationInc (p.kind.getD "unknown") "error"],
        by simp [enforce_single_policy, hk, h, hm]⟩
  · have hm := apply_generic_policy_metrics p ns now w
    rcases h : apply_generic_policy p ns now w with ⟨r, w'⟩
    rw [h] at hm
    replace hm : w'.metrics = w.metrics := hm
    cases r with
    | ok o =>
      exact ⟨[MetricEvent.latencyObserve (p.kind.getD "unknown"),
              MetricEvent.activePoliciesInc (p.kind.getD "unknown")],
        by simp [enforce_single_policy, hk, h, hm]⟩
    | error e =>
      exact ⟨[MetricEvent.latencyObserve (p.kind.getD "unknown"),
              MetricEvent.violationInc (p.kind.getD "unknown") "error"],
        by simp [enforce_single_policy, hk, h, hm]⟩

theorem scale_resources_metrics (api : ScaleCall → Except String Unit)
    (ts : List ScaleTarget) (w : World) :
    (scale_resources api ts w).2.metrics = w.metrics := by
  induction ts generalizing w with
  | nil => rfl
  | cons t rest ih =>
    by_cases hd : t.kind = some "Deployment"
    · cases hres : api ⟨"Deployment", t.name, t.namespace_, t.replicas⟩ <;>
        simp [scale_resources, hd, scale_deployment, hres, ih]
    · by_cases hs : t.kind = some "StatefulSet"
      · cases hres : api ⟨"StatefulSet", t.name, t.namespace_, t.replicas⟩ <;>
          simp [scale_resources, hd, hs, scale_statefulset, hres, ih]
      · simp [scale_resources, hd, hs, ih]

theorem apply_constraints_metrics_extend (cs : List Policy) (now : String) (w : World) :
    ∃ t, (apply_constraints cs now w).2.metrics = w.metrics ++ t := by
  induction cs generalizing w with
  | nil => exact ⟨[], by simp [apply_constraints]⟩
  | cons c rest ih =>
    obtain ⟨t1, ht1⟩ := enforce_single_policy_metrics_extend c (pyGetNamespaceD c) now w
    rcases h : enforce_single_policy c (pyGetNamespaceD c) now w with ⟨r, w1⟩
    rw [h] at ht1
    replace ht1 : w1.metrics = w.metrics ++ t1 := ht1
    cases r with
    | ok o =>
      obtain ⟨t2, ht2⟩ := ih w1
      exact ⟨t1 ++ t2, by simp [apply_constraints, h, ht2, ht1]⟩
    | error e =>
      exact ⟨t1, by simp [apply_constraints, h, ht1]⟩

theorem remediation_dispatch_metrics_extend (api : ScaleCall → Except String Unit)
    (v : Violation) (r : Remediation) (now : String) (w : World) :
    ∃ t, (remediation_dispatch api v r now w).2.metrics = w.metrics ++ t := by
  unfold remediation_dispatch
  split
  · split
    · exact ⟨[], by simp⟩
    · next pol hpol =>
      split
      · exact ⟨[], by simp⟩
      · next md hmd =>
        split
        · exact ⟨[], by simp⟩
        · next ns hns =>
          split
          · next a w1 heq =>
            obtain ⟨t1, ht1⟩ := enforce_single_policy_metrics_extend pol ns now w
            rw [heq] at ht1
            exact ⟨t1, ht1⟩
          · next e w1 heq =>
            obtain ⟨t1, ht1⟩ := enforce_single_policy_metrics_extend pol ns now w
            rw [heq] at ht1
            exact ⟨t1, ht1⟩
  · split
    · split
      · exact ⟨[], by simp⟩
      · next ts hts => exact ⟨[], by simp [scale_resources_metrics]⟩
    · split
      · split
        · exact ⟨[], by simp⟩
        · next cs hcs => exact apply_constraints_metrics_extend cs now w
      · exact ⟨[], by simp⟩

theorem remediate_violation_metrics_extend (api : ScaleCall → Except String Unit)
    (v : Violation) (now : String) (w : World) :
    ∃ t, (remediate_violation api v now w).2.metrics = w.metrics ++ t := by
  unfold remediate_violation
  split
  · exact ⟨[], by simp⟩
  · next sp hsp =>
    split
    · exact ⟨[], by simp⟩
    · next r hr =>
      split
      · next e w1 heq =>
        obtain ⟨t, ht⟩ := remediation_dispatch_metrics_extend api v r now w
        rw [heq] at ht
        exact ⟨t, ht⟩
      · next a w1 heq =>
        obtain ⟨t, ht⟩ := remediation_dispatch_metrics_extend api v r now w
        rw [heq] at ht
        split
        · exact ⟨t, ht⟩
        · split
          · exact ⟨t, ht⟩
          · exact ⟨t, ht⟩

/-! Characterisation of the aggregation pass. -/

theorem process_loop_spec (l : List (Except String Outcome × Policy)) (acc : Summary) :
    process_loop l acc =
      { total_policies := acc.total_policies
        successful := acc.successful + l.countP (fun rp => isOkResult rp.1)
        failed := acc.failed + l.countP (fun rp => !isOkResult rp.1)
        failures := acc.failures ++ l.filterMap failureOf
        timestamp := acc.timestamp } := by
  induction l generalizing acc with
  | nil => simp [process_loop]
  | cons rp rest ih =>
    rcases rp with ⟨r, p⟩
    cases r with
    | ok o =>
      simp [process_loop, ih, List.countP_cons, isOkResult, failureOf]
      omega
    | error e =>
      simp [process_loop, ih, List.countP_cons, isOkResult, failureOf]
      omega

theorem countP_isOk_split (l : List (Except String Outcome × Policy)) :
    l.countP (fun rp => isOkResult rp.1) + l.countP (fun rp => !isOkResult rp.1) =
      l.length := by
  induction l with
  | nil => rfl
  | cons a rest ih =>
    cases h : isOkResult a.1 <;> simp [List.countP_cons, h] <;> omega

theorem gather_results_length (policies : List Policy) (ns now : String) (w : World) :
    (gather_results policies ns now w).1.length = policies.length := by
  induction policies generalizing w with
  | nil => rfl
  | cons p rest ih => simp [gather_results, ih]

/-! Against the healthy adapter the only exceptions the enforcement path
can raise are the three `KeyError`s of the two apply functions; over the
fault-aware adapter the rendered `ApiException`s join them (see the `_api`
lemmas further down), and all of these are non-empty strings. -/

theorem apply_network_policy_error_mem (p : Policy) (ns now : String) (w : World)
    (e : String) (h : (apply_network_policy p ns now w).1 = .error e) :
    e = "KeyError: metadata" ∨ e = "KeyError: name" := by
  unfold apply_network_policy at h
  split at h
  · exact Or.inl (by simpa using h.symm)
  · split at h
    · exact Or.inr (by simpa using h.symm)
    · simp at h

theorem apply_generic_policy_error_mem (p : Policy) (ns now : String) (w : World)
    (e : String) (h : (apply_generic_policy p ns now w).1 = .error e) :
    e = "KeyError: metadata" ∨ e = "KeyError: name" ∨ e = "KeyError: kind" := by
  unfold apply_generic_policy at h
  split at h
  · exact Or.inl (by simpa using h.symm)
  · split at h
    · exact Or.inr (Or.inl (by simpa using h.symm))
    · split at h
      · exact Or.inr (Or.inr (by simpa using h.symm))
      · simp at h

/-- The exception component of `_enforce_single_policy` is exactly that of
the underlying apply call (metrics are appended but the result passes
through). -/
theorem enforce_single_policy_fst (p : Policy) (ns now : String) (w : World) :
    (enforce_single_policy p ns now w).1 =
      (if p.kind.getD "unknown" = "NetworkPolicy" then apply_network_policy p ns now w
        else apply_generic_policy p ns now w).1 := by
  rcases h : (if p.kind.getD "unknown" = "NetworkPolicy" then apply_network_policy p ns now w
    else apply_generic_policy p ns now w) with ⟨r, w'⟩
  cases r <;> simp [enforce_single_policy, h]

theorem enforce_single_policy_error_mem (p : Policy) (ns now : String) (w : World)
    (e : String) (h : (enforce_single_policy p ns now w).1 = .error e) :
    e = "KeyError: metadata" ∨ e = "KeyError: name" ∨ e = "KeyError: kind" := by
  rw [enforce_single_policy_fst] at h
  by_cases hk : p.kind.getD "unknown" = "NetworkPolicy"
  · rw [if_pos hk] at h
    rcases apply_network_policy_error_mem p ns now w e h with h1 | h1
    · exact Or.inl h1
    · exact Or.inr (Or.inl h1)
  · rw [if_neg hk] at h
    exact apply_generic_policy_error_mem p ns now w e h

theorem gather_results_error_mem (policies : List Policy) (ns now : String) (w : World)
    (e : String) (h : Except.error e ∈ (gather_results policies ns now w).1) :
    e = "KeyError: metadata" ∨ e = "KeyError: name" ∨ e = "KeyError: kind" := by
  induction policies generalizing w with
  | nil => simp [gather_results] at h
  | cons p rest ih =>
    simp only [gather_results, List.mem_cons] at h
    rcases h with h | h
    · exact enforce_single_policy_error_mem p ns now w e h.symm
    · exact ih _ h

/-! Lemmas about the fault-aware adapter pipeline. -/

theorem ApiError.render_ne_empty (e : ApiError) : e.render ≠ "" := by
  intro hcontra
  have hlen := congrArg String.length hcontra
  simp only [ApiError.render, String.length_append] at hlen
  have h1 : "(".length = 1 := rfl
  have h2 : ("" : String).length = 0 := rfl
  omega

theorem apply_network_policy_api_noFaults (p : Policy) (ns now : String) (w : World) :
    apply_network_policy_api noFaults p ns now w = apply_network_policy p ns now w := by
  cases hm : p.metadata with
  | none => simp [apply_network_policy_api, apply_network_policy, hm]
  | some md =>
    cases hn : md.name with
    | none => simp [apply_network_policy_api, apply_network_policy, hm, hn]
    | some name =>
      cases hr : readResource w.adapter ⟨"NetworkingV1/NetworkPolicy", ns, name⟩ <;>
        simp [apply_network_policy_api, apply_network_policy, hm, hn, upsert, hr, noFaults]

theorem apply_generic_policy_api_noFaults (p : Policy) (ns now : String) (w : World) :
    apply_generic_policy_api noFaults p ns now w = apply_generic_policy p ns now w := by
  cases hm : p.metadata with
  | none => simp [apply_generic_policy_api, apply_generic_policy, hm]
  | some md =>
    cases hn : md.name with
    | none => simp [apply_generic_policy_api, apply_generic_policy, hm, hn]
    | some name =>
      cases hk : p.kind with
      | none => simp [apply_generic_policy_api, apply_generic_policy, hm, hn, hk]
      | some kind =>
        cases hr : readResource w.adapter ⟨"policy/" ++ kind.toLower ++ "s", ns, name⟩ <;>
          simp [apply_generic_policy_api, apply_generic_policy, hm, hn, hk, upsert, hr,
            noFaults]

theorem enforce_single_policy_api_noFaults (p : Policy) (ns now : String) (w : World) :
    enforce_single_policy_api noFaults p ns now w = enforce_single_policy p ns now w := by
  unfold enforce_single_policy_api enforce_single_policy
  rw [apply_network_policy_api_noFaults, apply_generic_policy_api_noFaults]

theorem gather_results_api_noFaults (policies : List Policy) (ns now : String) (w : World) :
    gather_results_api noFaults policies ns now w = gather_results policies ns now w := by
  induction policies generalizing w with
  | nil => rfl
  | cons p rest ih =>
    simp [gather_results_api, gather_results, enforce_single_policy_api_noFaults, ih]

theorem enforce_policies_api_noFaults (policies : List Policy) (ns now : String)
    (w : World) :
    enforce_policies_api noFaults policies ns now w = enforce_policies policies ns now w := by
  simp [enforce_policies_api, enforce_policies, gather_results_api_noFaults]

theorem apply_network_policy_api_error_mem (f : AdapterFaults) (p : Policy)
    (ns now : String) (w : World) (e : String)
    (h : (apply_network_policy_api f p ns now w).1 = .error e) :
    e = "KeyError: metadata" ∨ e = "KeyError: name" ∨ ∃ a : ApiError, e = a.render := by
  cases hm : p.metadata with
  | none =>
    simp only [apply_network_policy_api, hm] at h
    exact Or.inl (by simpa using h.symm)
  | some md =>
    cases hn : md.name with
    | none =>
      simp only [apply_network_policy_api, hm, hn] at h
      exact Or.inr (Or.inl (by simpa using h.symm))
    | some name =>
      simp only [apply_network_policy_api, hm, hn] at h
      split at h
      · simp at h
      · split at h
        · split at h
          · next e2 hc => exact Or.inr (Or.inr ⟨e2, by simpa using h.symm⟩)
          · simp at h
        · next ae heq hne =>
          exact Or.inr (Or.inr ⟨ae, by simpa using h.symm⟩)

theorem apply_generic_policy_api_error_mem (f : AdapterFaults) (p : Policy)
    (ns now : String) (w : World) (e : String)
    (h : (apply_generic_policy_api f p ns now w).1 = .error e) :
    e = "KeyError: metadata" ∨ e = "KeyError: name" ∨ e = "KeyError: kind" ∨
      ∃ a : ApiError, e = a.render := by
  cases hm : p.metadata with
  | none =>
    simp only [apply_generic_policy_api, hm] at h
    exact Or.inl (by simpa using h.symm)
  | some md =>
    cases hn : md.name with
    | none =>
      simp only [apply_generic_policy_api, hm, hn] at h
      exact Or.inr (Or.inl (by simpa using h.symm))
    | some name =>
      cases hk : p.kind with
      | none =>
        simp only [apply_generic_policy_api, hm, hn, hk] at h
        exact Or.inr (Or.inr (Or.inl (by simpa using h.symm)))
      | some kind =>
        simp only [apply_generic_policy_api, hm, hn, hk] at h
        split at h
        · simp at h
        · split at h
          · split at h
            · next e2 hc => exact Or.inr (Or.inr (Or.inr ⟨e2, by simpa using h.symm⟩))
            · simp at h
          · next ae heq hne =>
            exact Or.inr (Or.inr (Or.inr ⟨ae, by simpa using h.symm⟩))

theorem enforce_single_policy_api_fst (f : AdapterFaults) (p : Policy) (ns now : String)
    (w : World) :
    (enforce_single_policy_api f p ns now w).1 =
      (if p.kind.getD "unknown" = "NetworkPolicy" then apply_network_policy_api f p ns now w
        else apply_generic_policy_api f p ns now w).1 := by
  rcases h : (if p.kind.getD "unknown" = "NetworkPolicy" then
      apply_network_policy_api f p ns now w
    else apply_generic_policy_api f p ns now w) with ⟨r, w'⟩
  cases r <;> simp [enforce_single_policy_api, h]

theorem enforce_single_policy_api_error_mem (f : AdapterFaults) (p : Policy)
    (ns now : String) (w : World) (e : String)
    (h : (enforce_single_policy_api f p ns now w).1 = .error e) :
    e = "KeyError: metadata" ∨ e = "KeyError: name" ∨ e = "KeyError: kind" ∨
      ∃ a : ApiError, e = a.render := by
  rw [enforce_single_policy_api_fst] at h
  by_cases hk : p.kind.getD "unknown" = "NetworkPolicy"
  · rw [if_pos hk] at h
    rcases apply_network_policy_api_error_mem f p ns now w e h with h1 | h1 | h1
    · exact Or.inl h1
    · exact Or.inr (Or.inl h1)
    · exact Or.inr (Or.inr (Or.inr h1))
  · rw [if_neg hk] at h
    exact apply_generic_policy_api_error_mem f p ns now w e h

theorem gather_results_api_error_mem (f : AdapterFaults) (policies : List Policy)
    (ns now : String) (w : World) (e : String)
    (h : Except.error e ∈ (gather_results_api f policies ns now w).1) :
    e = "KeyError: metadata" ∨ e = "KeyError: name" ∨ e = "KeyError: kind" ∨
      ∃ a : ApiError, e = a.render := by
  induction policies generalizing w with
  | nil => simp [gather_results_api] at h
  | cons p rest ih =>
    simp only [gather_results_api, List.mem_cons] at h
    rcases h with h | h
    · exact enforce_single_policy_api_error_mem f p ns now w e h.symm
    · exact ih _ h

/-! Behaviour of the scale-resources batch: all-succeed and first-failure
cases over Deployment and StatefulSet targets alike. -/

theorem scale_resources_all_ok (api : ScaleCall → Except String Unit) :
    ∀ (ts : List ScaleTarget) (w : World),
      (∀ u ∈ ts, ∀ c, targetCall u = some c → api c = .ok ()) →
      scale_resources api ts w =
        (.ok (), { w with scaleCalls := w.scaleCalls ++ ts.filterMap targetCall }) := by
  intro ts
  induction ts with
  | nil => intro w _; simp [scale_resources]
  | cons u rest ih =>
    intro w h
    have hrest : ∀ x ∈ rest, ∀ c, targetCall x = some c → api c = .ok () :=
      fun x hx => h x (List.mem_cons_of_mem u hx)
    by_cases hd : u.kind = some "Deployment"
    · have hcall := h u (List.mem_cons_self u rest)
        ⟨"Deployment", u.name, u.namespace_, u.replicas⟩ (by simp [targetCall, hd])
      have ihw := ih { w with scaleCalls :=
        w.scaleCalls ++ [⟨"Deployment", u.name, u.namespace_, u.replicas⟩] } hrest
      simp [scale_resources, hd, scale_deployment, hcall, ihw, targetCall]
    · by_cases hs : u.kind = some "StatefulSet"
      · have hcall := h u (List.mem_cons_self u rest)
          ⟨"StatefulSet", u.name, u.namespace_, u.replicas⟩ (by simp [targetCall, hd, hs])
        have ihw := ih { w with scaleCalls :=
          w.scaleCalls ++ [⟨"StatefulSet", u.name, u.namespace_, u.replicas⟩] } hrest
        simp [scale_resources, hd, hs, scale_statefulset, hcall, ihw, targetCall]
      · have ihw := ih w hrest
        simp [scale_resources, hd, hs, ihw, targetCall]

theorem scale_resources_abort (api : ScaleCall → Except String Unit) (t : ScaleTarget)
    (ts2 : List ScaleTarget) (c : ScaleCall) (e : String)
    (h2 : targetCall t = some c) (h3 : api c = .error e) :
    ∀ (ts1 : List ScaleTarget) (w : World),
      (∀ u ∈ ts1, ∀ c', targetCall u = some c' → api c' = .ok ()) →
      scale_resources api (ts1 ++ t :: ts2) w =
        (.error e,
          { w with scaleCalls := w.scaleCalls ++ (ts1.filterMap targetCall ++ [c]) }) := by
  intro ts1
  induction ts1 with
  | nil =>
    intro w _
    by_cases hd : t.kind = some "Deployment"
    · have hc : c = ⟨"Deployment", t.name, t.namespace_, t.replicas⟩ := by
        simp [targetCall, hd] at h2
        exact h2.symm
      subst hc
      simp [scale_resources, hd, scale_deployment, h3]
    · by_cases hs : t.kind = some "StatefulSet"
      · have hc : c = ⟨"StatefulSet", t.name, t.namespace_, t.replicas⟩ := by
          simp [targetCall, hd, hs] at h2
          exact h2.symm
        subst hc
        simp [scale_resources, hd, hs, scale_statefulset, h3]
      · simp [targetCall, hd, hs] at h2
  | cons u rest ih =>
    intro w h1
    have hrest : ∀ x ∈ rest, ∀ c', targetCall x = some c' → api c' = .ok () :=
      fun x hx => h1 x (List.mem_cons_of_mem u hx)
    by_cases hd : u.kind = some "Deployment"
    · have hcall := h1 u (List.mem_cons_self u rest)
        ⟨"Deployment", u.name, u.namespace_, u.replicas⟩ (by simp [targetCall, hd])
      have ihw := ih { w with scaleCalls :=
        w.scaleCalls ++ [⟨"Deployment", u.name, u.namespace_, u.replicas⟩] } hrest
      simp [scale_resources, hd, scale_deployment, hcall, ihw, targetCall]
    · by_cases hs : u.kind = some "StatefulSet"
      · have hcall := h1 u (List.mem_cons_self u rest)
          ⟨"StatefulSet", u.name, u.namespace_, u.replicas⟩ (by simp [targetCall, hd, hs])
        have ihw := ih { w with scaleCalls :=
          w.scaleCalls ++ [⟨"StatefulSet", u.name, u.namespace_, u.replicas⟩] } hrest
        simp [scale_resources, hd, hs, scale_statefulset, hcall, ihw, targetCall]
      · have ihw := ih w hrest
        simp [scale_resources, hd, hs, ihw, targetCall]

/-! Idempotence of the create-or-update enforcement path. -/

theorem readResource_upsert (s : AdapterState) (k : ResourceKey) (p : Policy) :
    readResource (upsert s k p) k = some p := by
  unfold upsert
  cases h : readResource s k with
  | some q => exact readResource_replace_of_some p h
  | none => exact readResource_create s k p

theorem apply_network_policy_eq (p : Policy) (ns now : String) (w : World)
    (md : PolicyMeta) (name : String) (hm : p.metadata = some md)
    (hn : md.name = some name) :
    apply_network_policy p ns now w =
      (.ok ⟨"success", name, "NetworkPolicy", now⟩,
        { w with adapter := upsert w.adapter ⟨"NetworkingV1/NetworkPolicy", ns, name⟩ p }) := by
  simp [apply_network_policy, hm, hn]

theorem apply_generic_policy_eq (p : Policy) (ns now : String) (w : World)
    (md : PolicyMeta) (name kind : String) (hm : p.metadata = some md)
    (hn : md.name = some name) (hk : p.kind = some kind) :
    apply_generic_policy p ns now w =
      (.ok ⟨"success", name, kind, now⟩,
        { w with adapter := upsert w.adapter ⟨"policy/" ++ kind.toLower ++ "s", ns, name⟩ p }) := by
  simp [apply_generic_policy, hm, hn, hk]

theorem enforce_single_policy_network_eq (p : Policy) (ns now : String) (w : World)
    (md : PolicyMeta) (name : String) (hm : p.metadata = some md)
    (hn : md.name = some name) (hk : p.kind = some "NetworkPolicy") :
    enforce_single_policy p ns now w =
      (.ok ⟨"success", name, "NetworkPolicy", now⟩,
        { w with
          adapter := upsert w.adapter ⟨"NetworkingV1/NetworkPolicy", ns, name⟩ p
          metrics := w.metrics ++ [MetricEvent.latencyObserve "NetworkPolicy",
            MetricEvent.activePoliciesInc "NetworkPolicy"] }) := by
  simp [enforce_single_policy, hk, apply_network_policy_eq p ns now w md name hm hn]

theorem enforce_single_policy_generic_eq (p : Policy) (ns now : String) (w : World)
    (md : PolicyMeta) (name kind : String) (hm : p.metadata = some md)
    (hn : md.name = some name) (hk : p.kind = some kind)
    (hkind : kind ≠ "NetworkPolicy") :
    enforce_single_policy p ns now w =
      (.ok ⟨"success", name, kind, now⟩,
        { w with
          adapter := upsert w.adapter ⟨"policy/" ++ kind.toLower ++ "s", ns, name⟩ p
          metrics := w.metrics ++ [MetricEvent.latencyObserve kind,
            MetricEvent.activePoliciesInc kind] }) := by
  simp [enforce_single_policy, hk, hkind,
    apply_generic_policy_eq p ns now w md name kind hm hn hk]

/-! Concrete fixtures used by witnesses and counterexamples. -/

/-- A scale adapter that accepts every call. -/
def okScaleApi : ScaleCall → Except String Unit := fun _ => .ok ()

/-- A scale adapter that rejects exactly the target named `x`. -/
def failOnXScaleApi : ScaleCall → Except String Unit :=
  fun c => if c.name = some "x" then .error "scale failed" else .ok ()

/-- A well-formed network policy named `a`. -/
def netPolicyA : Policy :=
  { kind := some "NetworkPolicy", metadata := some { name := some "a" } }

/-- A malformed policy: no `kind`, no `metadata`. -/
def badPolicy : Policy := {}

/-- A warning-severity violation. -/
def warnViolation : Violation :=
  { spec := some { type := some "quota", severity := some "warning" }
    metadata := some { name := some "v", namespace_ := some "default" } }

/-- A critical violation carrying no `remediation` field. -/
def critNoRemViolation : Violation :=
  { spec := some { type := some "quota", severity := some "critical" }
    metadata := some { name := some "v", namespace_ := some "default" } }

/-- A critical violation whose `update_policy` remediation carries a
malformed (empty) policy, so executing the remediation raises. -/
def critBadRemViolation : Violation :=
  { spec := some
      { type := some "quota"
        severity := some "critical"
        remediation := some { type := some "update_policy", policy := some {} } }
    metadata := some { name := some "v", namespace_ := some "default" } }

/-- Scale target `x` (the one `failOnXScaleApi` rejects). -/
def targetX : ScaleTarget :=
  { kind := some "Deployment", name := some "x", namespace_ := some "default"
    replicas := some 3 }

/-- Scale target `y` (accepted by `failOnXScaleApi`). -/
def targetY : ScaleTarget :=
  { kind := some "Deployment", name := some "y", namespace_ := some "default"
    replicas := some 2 }

/-- A StatefulSet scale target named `y` (accepted by `failOnXScaleApi`). -/
def stsTargetY : ScaleTarget :=
  { kind := some "StatefulSet", name := some "y", namespace_ := some "default"
    replicas := some 2 }

/-- A file system that resolves every path to `netPolicyA`. -/
def fsNetPolicyA : String → Option Policy := fun _ => some netPolicyA

/-- An adapter transport whose create calls all raise `ApiException(403)`. -/
def forbidCreateFaults : AdapterFaults :=
  { createFault := fun _ => some ⟨403, "Forbidden"⟩ }

/-! Claim theorems. -/

/-- Claim C1: for every violation event handled by the watcher (one whose
`spec` carries `type` and `severity`), the remediation dispatcher
`_remediate_violation` is invoked exactly once when the severity is
`critical` and never otherwise, and the violation is counted in the
`(type, severity)` violation metric in every case. -/
theorem c1_severity_gating (api : ScaleCall → Except String Unit) (v : Violation)
    (now : String) (w : World) (sp : ViolationSpec) (vtype sev : String)
    (h1 : v.spec = some sp) (h2 : sp.type = some vtype) (h3 : sp.severity = some sev) :
    (handle_violation api v now w).2.2 = (if sev = "critical" then 1 else 0) ∧
    MetricEvent.violationInc vtype sev ∈ (handle_violation api v now w).2.1.metrics := by
  by_cases hc : sev = "critical"
  · subst hc
    obtain ⟨t, ht⟩ := remediate_violation_metrics_extend api v now
      { w with metrics := w.metrics ++ [MetricEvent.violationInc vtype "critical"] }
    rcases hr : remediate_violation api v now
        { w with metrics := w.metrics ++ [MetricEvent.violationInc vtype "critical"] }
      with ⟨res, w2⟩
    rw [hr] at ht
    replace ht : w2.metrics =
      (w.metrics ++ [MetricEvent.violationInc vtype "critical"]) ++ t := ht
    cases res <;> simp [handle_violation, h1, h2, h3, hr, ht]
  · simp [handle_violation, h1, h2, h3, hc]

/-- Witness for C1 at a concrete warning violation: no dispatch, metric
recorded. -/
theorem c1_severity_gating_witness :
    (handle_violation okScaleApi warnViolation "t0" {}).2.2 =
        (if "warning" = "critical" then 1 else 0) ∧
      MetricEvent.violationInc "quota" "warning" ∈
        (handle_violation okScaleApi warnViolation "t0" {}).2.1.metrics :=
  c1_severity_gating okScaleApi warnViolation "t0" {}
    { type := some "quota", severity := some "warning" } "quota" "warning" rfl rfl rfl

/-- Claim C2: enforcing any policy document in silent (simulated) mode
returns a `simulated` outcome tagged with the policy's kind, extracted
name, the namespace and the timestamp, leaves the adapter state unchanged,
performs zero adapter calls, and always succeeds. -/
theorem c2_simulated_mode_frame (p : Policy) (ns now : String) (s : AdapterState) :
    enforce_policy_doc true p ns now s =
      .ok ({ status := "simulated", policy_type := p.kind, name := some (pyGetName p),
             namespace_ := ns, timestamp := now, mode := some "silent" }, s, []) := rfl

/-- Counterexample to claim C4 as stated: a critical violation with no
`remediation` field is not logged as unremediable and no `Failed`
remediation outcome is recorded — the handler completes successfully with
the violation-counter increment as its only observable effect (the
`if remediation:` guard silently skips the whole body). -/
theorem c4_counterexample :
    handle_violation okScaleApi critNoRemViolation "t0" {} =
      (.ok (), { adapter := [], metrics := [MetricEvent.violationInc "quota" "critical"],
                 scaleCalls := [] }, 1) := rfl

/-- Claim C4 (amended): for every critical violation whose `remediation`
field is absent, the dispatcher is invoked but silently skips it: no
remediation action is attempted, no failure is recorded, and handling
completes successfully with only the metric increment. -/
theorem c4_amended_silent_skip (api : ScaleCall → Except String Unit) (v : Violation)
    (now : String) (w : World) (sp : ViolationSpec) (vtype : String)
    (h1 : v.spec = some sp) (h2 : sp.type = some vtype)
    (h3 : sp.severity = some "critical") (h4 : sp.remediation = none) :
    handle_violation api v now w =
      (.ok (),
        { w with metrics := w.metrics ++ [MetricEvent.violationInc vtype "critical"] },
        1) := by
  simp [handle_violation, h1, h2, h3, remediate_violation, h4]

/-- Witness for the amended C4 at a concrete critical violation without a
remediation field. -/
theorem c4_amended_witness :
    handle_violation okScaleApi critNoRemViolation "t1" {} =
      (.ok (),
        { ({} : World) with
          metrics := ({} : World).metrics ++ [MetricEvent.violationInc "quota" "critical"] },
        1) :=
  c4_amended_silent_skip okScaleApi critNoRemViolation "t1" {}
    { type := some "quota", severity := some "critical" } "quota" rfl rfl rfl rfl

/-- Claim C5 evaluated at its failing input: a critical violation whose
remediation action raises (here: `update_policy` with a malformed policy)
is not recorded as a failed-remediation outcome; the exception is re-raised
out of `_handle_violation` (and hence out of the watch loop). -/
theorem c5_handler_reraises :
    (handle_violation okScaleApi critBadRemViolation "t0" {}).1 =
      .error "KeyError: metadata" := rfl

/-- Counterexample to claim C3 as stated: in the batch
`[netPolicyA, badPolicy]` the malformed policy sits at input position 1,
but its failure entry is the single entry of the `failures` list, at index
0; there is no failures entry at index 1, so a failure entry's index in
`failures` does not in general equal its policy's position in the input
sequence. -/
theorem c3_counterexample :
    (enforce_policies [netPolicyA, badPolicy] "default" "t0" {}).1.failed = 1 ∧
    (enforce_policies [netPolicyA, badPolicy] "default" "t0" {}).1.successful = 1 ∧
    (enforce_policies [netPolicyA, badPolicy] "default" "t0" {}).1.failures =
      [⟨none, "KeyError: metadata"⟩] ∧
    (enforce_policies [netPolicyA, badPolicy] "default" "t0" {}).1.failures.get? 1 =
      none :=
  ⟨rfl, rfl, rfl, rfl⟩

/-- Claim C3 (amended): for every input sequence of N policies the batch
summary counts every non-failed outcome in `successful` and every failed
one in `failed`, a failure in one policy never prevents the remaining
policies from being enforced and counted (`successful + failed = N`), and
`failures` is exactly the subsequence of `(policyName, error)` pairs of the
failed policies in input order — a failure entry's index is therefore its
rank among the failures, not its policy's absolute input position. -/
theorem c3_amended_batch_summary (policies : List Policy) (ns now : String) (w : World) :
    (enforce_policies policies ns now w).1.total_policies = policies.length ∧
    (enforce_policies policies ns now w).1.successful =
      ((gather_results policies ns now w).1.zip policies).countP
        (fun rp => isOkResult rp.1) ∧
    (enforce_policies policies ns now w).1.failed =
      ((gather_results policies ns now w).1.zip policies).countP
        (fun rp => !isOkResult rp.1) ∧
    (enforce_policies policies ns now w).1.successful +
        (enforce_policies policies ns now w).1.failed = policies.length ∧
    (enforce_policies policies ns now w).1.failures =
      ((gather_results policies ns now w).1.zip policies).filterMap failureOf := by
  have hsum : (enforce_policies policies ns now w).1 =
      process_loop ((gather_results policies ns now w).1.zip policies)
        { total_policies := policies.length, successful := 0, failed := 0,
          failures := [], timestamp := now } := rfl
  have hlen : ((gather_results policies ns now w).1.zip policies).length =
      policies.length := by
    rw [List.length_zip, gather_results_length, Nat.min_self]
  rw [hsum, process_loop_spec]
  refine ⟨rfl, by simp, by simp, ?_, by simp⟩
  simpa using (countP_isOk_split ((gather_results policies ns now w).1.zip policies)).trans hlen

/-- Counterexample to claim C6 as stated: with a scale adapter that rejects
target `x`, scaling `[targetX, targetY]` issues the call for `x`, then the
failure aborts the loop — no call is ever issued for `y` and the error
propagates as an exception instead of being captured as data. -/
theorem c6_counterexample :
    scale_resources failOnXScaleApi [targetX, targetY] {} =
      (.error "scale failed",
        { adapter := [], metrics := []
          scaleCalls := [⟨"Deployment", some "x", some "default", some 3⟩] }) := rfl

/-- Claim C6 (amended): for every `ScaleResources` remediation, each
Deployment or StatefulSet target gives rise to one scale call keyed by
`(kind, name, namespace)`, issued in input order (targets of any other
kind are skipped by the loop).  When no issued call fails, every target's
call is issued and the batch succeeds; a failure while scaling one target
aborts the scale calls for all remaining targets and the error propagates
as an exception out of the batch rather than being captured as data. -/
theorem c6_amended_scale_behaviour (api : ScaleCall → Except String Unit) :
    (∀ (ts : List ScaleTarget) (w : World),
      (∀ u ∈ ts, ∀ c, targetCall u = some c → api c = .ok ()) →
      scale_resources api ts w =
        (.ok (), { w with scaleCalls := w.scaleCalls ++ ts.filterMap targetCall })) ∧
    (∀ (ts1 : List ScaleTarget) (t : ScaleTarget) (ts2 : List ScaleTarget) (w : World)
      (c : ScaleCall) (e : String),
      (∀ u ∈ ts1, ∀ c', targetCall u = some c' → api c' = .ok ()) →
      targetCall t = some c → api c = .error e →
      scale_resources api (ts1 ++ t :: ts2) w =
        (.error e,
          { w with scaleCalls := w.scaleCalls ++ (ts1.filterMap targetCall ++ [c]) })) :=
  ⟨scale_resources_all_ok api,
    fun ts1 t ts2 w c e h1 h2 h3 => scale_resources_abort api t ts2 c e h2 h3 ts1 w h1⟩

/-- Witness for the amended C6: a StatefulSet target `y` followed by a
Deployment target `x`.  Against the rejecting adapter only the calls up to
the failing `x` are issued and the error propagates; against the healthy
adapter both targets' calls are issued and the batch succeeds. -/
theorem c6_amended_scale_behaviour_witness :
    scale_resources failOnXScaleApi [stsTargetY, targetX] {} =
        (.error "scale failed",
          { ({} : World) with scaleCalls :=
              ({} : World).scaleCalls ++
                ([stsTargetY].filterMap targetCall ++
                  [⟨"Deployment", some "x", some "default", some 3⟩]) }) ∧
      scale_resources okScaleApi [stsTargetY, targetX] {} =
        (.ok (), { ({} : World) with scaleCalls :=
            ({} : World).scaleCalls ++ [stsTargetY, targetX].filterMap targetCall }) := by
  constructor
  · exact (c6_amended_scale_behaviour failOnXScaleApi).2 [stsTargetY] targetX [] {}
      ⟨"Deployment", some "x", some "default", some 3⟩ "scale failed"
      (by
        intro u hu c' hc'
        rw [List.mem_singleton] at hu
        subst hu
        rw [show targetCall stsTargetY =
            some ⟨"StatefulSet", some "y", some "default", some 2⟩ from rfl,
          Option.some_inj] at hc'
        subst hc'
        rfl)
      rfl rfl
  · exact (c6_amended_scale_behaviour okScaleApi).1 [stsTargetY, targetX] {}
      (fun u _ c _ => rfl)

/-- Claim C7: in active mode, enforcing the same policy document (a
well-formed document with `kind` and `metadata.name`, per the spec's
`PolicyDocument` data model) twice in succession with no external change
to the adapter yields a `success` outcome both times and leaves the target
resource store identical to a single application. -/
theorem c7_enforce_idempotent (p : Policy) (ns now1 now2 : String) (w : World)
    (md : PolicyMeta) (name kind : String) (hm : p.metadata = some md)
    (hn : md.name = some name) (hk : p.kind = some kind) :
    ∃ o1 w1 o2 w2,
      enforce_single_policy p ns now1 w = (.ok o1, w1) ∧
      enforce_single_policy p ns now2 w1 = (.ok o2, w2) ∧
      o1.status = "success" ∧ o2.status = "success" ∧ w2.adapter = w1.adapter := by
  by_cases hnet : kind = "NetworkPolicy"
  · subst hnet
    refine ⟨_, _, _, _,
      enforce_single_policy_network_eq p ns now1 w md name hm hn hk,
      enforce_single_policy_network_eq p ns now2 _ md name hm hn hk, rfl, rfl, ?_⟩
    simp [upsert_idem]
  · refine ⟨_, _, _, _,
      enforce_single_policy_generic_eq p ns now1 w md name kind hm hn hk hnet,
      enforce_single_policy_generic_eq p ns now2 _ md name kind hm hn hk hnet,
      rfl, rfl, ?_⟩
    simp [upsert_idem]

/-- Witness for C7 at a concrete network policy against the empty adapter. -/
theorem c7_enforce_idempotent_witness :
    ∃ o1 w1 o2 w2,
      enforce_single_policy netPolicyA "default" "t1" {} = (.ok o1, w1) ∧
      enforce_single_policy netPolicyA "default" "t2" w1 = (.ok o2, w2) ∧
      o1.status = "success" ∧ o2.status = "success" ∧ w2.adapter = w1.adapter :=
  c7_enforce_idempotent netPolicyA "default" "t1" "t2" {} { name := some "a" }
    "a" "NetworkPolicy" rfl rfl rfl

/-- Claim C8: every failure entry of a summary produced by an enforcement
pass — over any adapter transport, faults included — carries a non-empty
error string: the configuration errors are the three `KeyError`s and every
adapter error is a re-raised `ApiException` whose rendered text starts
with `(status)`, so neither kind of `errorDetail` is empty. -/
theorem c8_failed_error_nonempty (f : AdapterFaults) (policies : List Policy)
    (ns now : String) (w : World) (entry : FailureEntry)
    (h : entry ∈ (enforce_policies_api f policies ns now w).1.failures) :
    entry.error ≠ "" := by
  have hfail : (enforce_policies_api f policies ns now w).1.failures =
      ((gather_results_api f policies ns now w).1.zip policies).filterMap failureOf := by
    have hsum : (enforce_policies_api f policies ns now w).1 =
        process_loop ((gather_results_api f policies ns now w).1.zip policies)
          { total_policies := policies.length, successful := 0, failed := 0,
            failures := [], timestamp := now } := rfl
    rw [hsum, process_loop_spec]
    simp
  rw [hfail, List.mem_filterMap] at h
  obtain ⟨⟨r, p⟩, hmem, hf⟩ := h
  cases r with
  | ok o => simp [failureOf] at hf
  | error e =>
    simp only [failureOf] at hf
    rw [Option.some_inj] at hf
    subst hf
    have herr : Except.error e ∈ (gather_results_api f policies ns now w).1 :=
      (List.of_mem_zip hmem).1
    rcases gather_results_api_error_mem f policies ns now w e herr with h1 | h1 | h1 | h1
    · subst h1; simp
    · subst h1; simp
    · subst h1; simp
    · obtain ⟨a, ha⟩ := h1
      subst ha
      simpa using ApiError.render_ne_empty a

/-- Witness for C8 at a concrete batch exercising both failure sources: the
transport rejects every create with a 403 `ApiException` (failing
`netPolicyA`) and `badPolicy` raises a `KeyError`. -/
theorem c8_failed_error_nonempty_witness :
    (⟨some "a", ApiError.render ⟨403, "Forbidden"⟩⟩ : FailureEntry) ∈
        (enforce_policies_api forbidCreateFaults [netPolicyA, badPolicy]
          "default" "t0" {}).1.failures ∧
      FailureEntry.error ⟨some "a", ApiError.render ⟨403, "Forbidden"⟩⟩ ≠ "" :=
  ⟨by decide,
    c8_failed_error_nonempty forbidCreateFaults [netPolicyA, badPolicy] "default"
      "t0" {} ⟨some "a", ApiError.render ⟨403, "Forbidden"⟩⟩ (by decide)⟩

/-- Counterexample to claim C9 as stated: `GovernanceScaler`, the other
controller named by the claim's sources, does not downgrade when the
adapter cannot be initialized — its constructor logs and re-raises, so
construction fails instead of falling back to simulation. -/
theorem c9_counterexample :
    GovernanceScaler.construct "config" false =
      .error "Failed to initialize Kubernetes client" := rfl

/-- Claim C9 (amended): `GovernanceEnforcer` constructed with
`silent_mode=False` whose Kubernetes initialisation fails does not raise:
it downgrades to silent (simulated) mode, logging once and not retrying;
`GovernanceScaler`, by contrast, re-raises the initialisation failure so
its construction fails. -/
theorem c9_amended_enforcer_downgrades (ps : List Policy) (cfg : String) :
    GovernanceEnforcer.construct (some ps) cfg false false =
      .ok { config_dir := cfg, silent_mode := true, policies := ps } := rfl

/-- Claim C10: the module-level `enforce_policy` constructs its
`GovernanceEnforcer` with `silent_mode` left at its default `True`, so —
whatever the Kubernetes adapter's availability — every call through this
entry point that reaches enforcement returns a `simulated` outcome and
performs zero adapter calls. -/
theorem c10_module_entry_always_simulated (fs : String → Option Policy)
    (ps : List Policy) (k8sOk : Bool) (policy_file ns now : String)
    (s : AdapterState) (p : Policy) (hfs : fs policy_file = some p) :
    module_enforce_policy fs (some ps) k8sOk policy_file ns now s =
      .ok ({ status := "simulated", policy_type := p.kind, name := some (pyGetName p),
             namespace_ := ns, timestamp := now, mode := some "silent" }, s, []) := by
  simp [module_enforce_policy, GovernanceEnforcer.construct,
    GovernanceEnforcer.enforce_policy, hfs, enforce_policy_doc]

/-- Witness for C10 at a concrete policy file, with the Kubernetes adapter
unavailable. -/
theorem c10_module_entry_witness :
    module_enforce_policy fsNetPolicyA (some []) false "config/net.yaml" "default"
        "t0" [] =
      .ok ({ status := "simulated", policy_type := netPolicyA.kind,
             name := some (pyGetName netPolicyA), namespace_ := "default",
             timestamp := "t0", mode := some "silent" }, [], []) :=
  c10_module_entry_always_simulated fsNetPolicyA [] false "config/net.yaml"
    "default" "t0" [] netPolicyA rfl
